import Mathlib

/-
Verification of the hover-preview audio controller embedded in the blog
post src/content/next-hsts-preload.mdx.

The source is React code.  Each rendered track row owns local state
(audio, fadeIn, fadeOut, interactable via useState); two values are
process-wide via createGlobalState: activeTrack and interactableNotified.
The controller operations are the row handlers play() and stop(), the
interval callbacks they register, the deferred pause, and the promise
handlers attached to newAudio.play().

Modelling decisions, all taken from the source:

* Volumes are exact hundredths (Int): the source only ever produces
  two-decimal multiples of 0.05 through
  Number((v + 0.05).toFixed(2)) and Number((v - 0.05).toFixed(2)),
  and toFixed(2) is the identity on such values, so +0.05 / -0.05 become
  +5 / -5 on hundredths.  1.0 is 100.

* React useState / useGlobalState closures capture the VALUE a state
  variable had when the closure was created, not the variable itself.
  So the fade-in interval callback captures the value of fadeIn from
  before setFadeIn(timer) ran, the fade-out callback captures the value
  of fadeOut from before setFadeOut ran, and the promise handlers
  capture the value of interactableNotified at the time play() ran.
  Audio elements are heap objects: reads and writes of newAudio.volume
  go through the heap at callback run time.

* Timers: setInterval and setTimeout register timers with a due time and
  a registration sequence number (the timer id).  The host fires the
  timer with the least due time, breaking ties by registration order.
  Intervals re-arm at due + period.

* newAudio.play() registers a pending promise that is settled by an
  explicit resolve or reject event, at most once.
-/

namespace Preview

abbrev TrackId := String

/-- An HTMLAudioElement: the track it was created for, its volume in
hundredths (0.05 is 5, 1.0 is 100) and its paused flag. -/
structure AudioObj where
  track : TrackId
  volume : Int
  paused : Bool
deriving DecidableEq

/-- The callback registered with a timer.  Each constructor records the
values the source closure captured at creation time: the audio element
(by heap id) and, for the interval callbacks, the stale captured value
of the fadeIn or fadeOut state variable. -/
inductive TimerAct where
  | fadeInTick (aid : Nat) (capturedFadeIn : Option Nat)
  | fadeOutTick (aid : Nat) (capturedFadeOut : Option Nat)
  | pauseShot (aid : Nat)
deriving DecidableEq

/-- A registered timer.  tid doubles as the registration sequence
number; period is some 100 for setInterval and none for setTimeout. -/
structure Timer where
  tid : Nat
  due : Nat
  period : Option Nat
  act : TimerAct
deriving DecidableEq

/-- A pending newAudio.play() promise.  capturedNotified is the value of
the global interactableNotified that the then/catch closures captured
when play() ran. -/
structure Pending where
  pid : Nat
  aid : Nat
  track : TrackId
  capturedNotified : Bool
deriving DecidableEq

/-- The useState fields of one track row component:
audio, fadeIn, fadeOut handles and the interactable flag. -/
structure RowState where
  audio : Option Nat
  fadeIn : Option Nat
  fadeOut : Option Nat
  interactable : Bool
deriving DecidableEq

/-- A toast surfaced to the user: toast(...), toast.success(...) or
toast.error(...). -/
inductive Toast where
  | plain (msg : String)
  | success (msg : String)
  | error (msg : String)
deriving DecidableEq

/-- The whole interactive state: per-row component state, the audio
element heap, registered timers, pending play() promises, the two
process-wide values (activeTrack, interactableNotified), the toasts
emitted so far, the clock and the id counters. -/
structure Ctrl where
  rows : TrackId → RowState
  heap : List (Nat × AudioObj)
  timers : List Timer
  pendings : List Pending
  activeTrack : String
  interactableNotified : Bool
  toasts : List Toast
  now : Nat
  nextAid : Nat
  nextTid : Nat
  nextPid : Nat

/-- Functional update of one row. -/
def updRow (rows : TrackId → RowState) (t : TrackId) (r : RowState) :
    TrackId → RowState :=
  fun t2 => if t2 = t then r else rows t2

@[simp] theorem updRow_same (rows : TrackId → RowState) (t : TrackId)
    (r : RowState) : updRow rows t r t = r := by
  simp [updRow]

@[simp] theorem updRow_ne (rows : TrackId → RowState) (t t2 : TrackId)
    (r : RowState) (h : ¬ t2 = t) : updRow rows t r t2 = rows t2 := by
  simp [updRow, h]

/-- Look up an audio element in the heap. -/
def heapGet (h : List (Nat × AudioObj)) (aid : Nat) : Option AudioObj :=
  (h.find? (fun p => p.1 == aid)).map Prod.snd

/-- Mutate an audio element in place. -/
def heapSet (h : List (Nat × AudioObj)) (aid : Nat)
    (f : AudioObj → AudioObj) : List (Nat × AudioObj) :=
  h.map (fun p => if p.1 == aid then (p.1, f p.2) else p)

/-- clearInterval, with the `if (handle)` null check of the source. -/
def clearInterval (ts : List Timer) (h : Option Nat) : List Timer :=
  match h with
  | none => ts
  | some tid => ts.filter (fun tm => tm.tid != tid)

/-- JavaScript String.prototype.includes, checked head first: leadsWith
pat s decides whether pat is an initial segment of s. -/
def leadsWith : List Char → List Char → Bool
  | [], _ => true
  | _ :: _, [] => false
  | c :: cs, d :: ds => c == d && leadsWith cs ds

/-- occursIn pat s decides whether pat occurs contiguously in s. -/
def occursIn (pat : List Char) : List Char → Bool
  | [] => leadsWith pat []
  | d :: ds => leadsWith pat (d :: ds) || occursIn pat ds

/-- message.includes(pat) from the source. -/
def includesStr (s pat : String) : Bool := occursIn pat.data s.data

/-- The autoplay rejection marker tested by the source catch handler. -/
def interactMarker : String := "user didn\x27t interact with the document first"

/-- The benign-race rejection marker tested by the source catch handler. -/
def pauseMarker : String := "interrupted by a call to pause()"

/-- The advisory toast text of the source. -/
def advisoryMsg : String :=
  "Please click anywhere on the page to preview tracks on hover."

/-- The acknowledgement toast text of the source. -/
def ackMsg : String := "Nice! You\x27re good to go."

/--
play() for the row of track t:

  if (audio || !track.preview_url) return;
  const newAudio = new Audio(track.preview_url);
  newAudio.volume = 0;
  setActiveTrack(track.id);
  newAudio.play().then(...).catch(...);
  const timer = setInterval(() => {
    if (newAudio.volume < 1) {
      newAudio.volume = Number((newAudio.volume + 0.05).toFixed(2));
    } else if (fadeIn) {
      clearInterval(fadeIn);
    }
  }, 100);
  setFadeIn(timer);
  setAudio(newAudio);

The interval callback captures newAudio and the pre-update value of
fadeIn; the promise handlers capture the current interactableNotified.
-/
def playStep (s : Ctrl) (t : TrackId) (previewUrl : Option String) : Ctrl :=
  let row := s.rows t
  if row.audio.isSome || previewUrl.isNone then s
  else
    let aid := s.nextAid
    let p : Pending :=
      { pid := s.nextPid, aid := aid, track := t,
        capturedNotified := s.interactableNotified }
    let timer : Timer :=
      { tid := s.nextTid, due := s.now + 100, period := some 100,
        act := TimerAct.fadeInTick aid row.fadeIn }
    { s with
      rows := updRow s.rows t
        { row with audio := some aid, fadeIn := some timer.tid },
      heap := s.heap ++ [(aid, { track := t, volume := 0, paused := false })],
      timers := s.timers ++ [timer],
      pendings := s.pendings ++ [p],
      activeTrack := t,
      nextAid := aid + 1, nextTid := timer.tid + 1, nextPid := p.pid + 1 }

/--
stop() for the row of track t:

  if (!audio) return;
  const originalVolume = audio.volume;
  setAudio(null);
  setActiveTrack(two-quote-empty);
  if (fadeIn) clearInterval(fadeIn);
  setFadeOut(setInterval(() => {
    if (audio.volume > 0) {
      audio.volume = Number((audio.volume - 0.05).toFixed(2));
    } else if (fadeOut) {
      clearInterval(fadeOut);
    }
  }, 100));
  setTimeout(() => audio.pause(), (originalVolume / 0.05) * 100);

The fade-out callback captures audio and the pre-update value of
fadeOut; fadeIn is NOT reset, only cleared.  With volume in hundredths
the deferred pause delay (originalVolume / 0.05) * 100 is
originalVolume * 20 milliseconds.
-/
def stopStep (s : Ctrl) (t : TrackId) : Ctrl :=
  let row := s.rows t
  match row.audio with
  | none => s
  | some aid =>
    let originalVolume : Int :=
      (heapGet s.heap aid).elim 0 AudioObj.volume
    let ts1 := clearInterval s.timers row.fadeIn
    let fo : Timer :=
      { tid := s.nextTid, due := s.now + 100, period := some 100,
        act := TimerAct.fadeOutTick aid row.fadeOut }
    let po : Timer :=
      { tid := s.nextTid + 1, due := s.now + originalVolume.toNat * 20,
        period := none, act := TimerAct.pauseShot aid }
    { s with
      rows := updRow s.rows t
        { row with audio := none, fadeOut := some fo.tid },
      activeTrack := "",
      timers := ts1 ++ [fo, po],
      nextTid := s.nextTid + 2 }

/-- Run one timer callback.  Volume updates are the exact hundredths
versions of Number((v + 0.05).toFixed(2)) and
Number((v - 0.05).toFixed(2)); the else branches clear the captured
stale handle, exactly as the source closures do. -/
def runAct (s : Ctrl) (act : TimerAct) : Ctrl :=
  match act with
  | TimerAct.fadeInTick aid captured =>
    match heapGet s.heap aid with
    | none => s
    | some a =>
      if a.volume < 100 then
        { s with heap := heapSet s.heap aid (fun o => { o with volume := o.volume + 5 }) }
      else
        { s with timers := clearInterval s.timers captured }
  | TimerAct.fadeOutTick aid captured =>
    match heapGet s.heap aid with
    | none => s
    | some a =>
      if a.volume > 0 then
        { s with heap := heapSet s.heap aid (fun o => { o with volume := o.volume - 5 }) }
      else
        { s with timers := clearInterval s.timers captured }
  | TimerAct.pauseShot aid =>
    { s with heap := heapSet s.heap aid (fun o => { o with paused := true }) }

/-- Timer ordering: earlier due time first, registration order on ties. -/
def timerLt (a b : Timer) : Bool :=
  a.due < b.due || (a.due == b.due && a.tid < b.tid)

/-- The next timer the host fires. -/
def nextTimer (ts : List Timer) : Option Timer :=
  ts.foldl
    (fun best tm =>
      match best with
      | none => some tm
      | some b => if timerLt tm b then some tm else some b)
    none

/-- Fire the next due timer: advance the clock, re-arm an interval or
drop a one-shot, then run the callback. -/
def fireNext (s : Ctrl) : Ctrl :=
  match nextTimer s.timers with
  | none => s
  | some tm =>
    let s1 :=
      { s with
        now := tm.due,
        timers :=
          match tm.period with
          | some p =>
            s.timers.map (fun x => if x.tid == tm.tid then { x with due := tm.due + p } else x)
          | none => s.timers.filter (fun x => x.tid != tm.tid) }
    runAct s1 tm.act

/-- Find a pending promise by id. -/
def findPending (s : Ctrl) (k : Nat) : Option Pending :=
  s.pendings.find? (fun q => q.pid == k)

/--
The then handler of newAudio.play():

  setInteractable(true);
  if (interactableNotified) {
    setInteractableNotified(false);
    toast.success(ack);
  }

interactableNotified here is the value captured when play() ran.
There is no check that the session is still the active one.
-/
def resolveStep (s : Ctrl) (k : Nat) : Ctrl :=
  match findPending s k with
  | none => s
  | some p =>
    let s1 := { s with pendings := s.pendings.filter (fun q => q.pid != k) }
    let row := s1.rows p.track
    let s2 :=
      { s1 with rows := updRow s1.rows p.track { row with interactable := true } }
    if p.capturedNotified then
      { s2 with interactableNotified := false,
                toasts := s2.toasts ++ [Toast.success ackMsg] }
    else s2

/--
The catch handler of newAudio.play():

  if (message.includes(interactMarker)) {
    if (!interactableNotified) {
      toast(advisory); setInteractableNotified(true); return;
    }
    return;
  }
  if (!message.includes(pauseMarker)) { toast.error(message); }

interactableNotified here is the value captured when play() ran.
-/
def rejectStep (s : Ctrl) (k : Nat) (message : String) : Ctrl :=
  match findPending s k with
  | none => s
  | some p =>
    let s1 := { s with pendings := s.pendings.filter (fun q => q.pid != k) }
    if includesStr message interactMarker then
      if !p.capturedNotified then
        { s1 with toasts := s1.toasts ++ [Toast.plain advisoryMsg],
                  interactableNotified := true }
      else s1
    else if !(includesStr message pauseMarker) then
      { s1 with toasts := s1.toasts ++ [Toast.error message] }
    else s1

/-- The observable events: the row handlers, a timer firing, and the
asynchronous settlement of a pending play() promise. -/
inductive Ev where
  | play (t : TrackId) (url : Option String)
  | stop (t : TrackId)
  | fire
  | resolve (k : Nat)
  | reject (k : Nat) (msg : String)

/-- One event step. -/
def step (s : Ctrl) : Ev → Ctrl
  | Ev.play t u => playStep s t u
  | Ev.stop t => stopStep s t
  | Ev.fire => fireNext s
  | Ev.resolve k => resolveStep s k
  | Ev.reject k m => rejectStep s k m

/-- The initial page state: no sessions, no timers, empty marker,
advisory not yet shown. -/
def init : Ctrl :=
  { rows := fun _ => { audio := none, fadeIn := none, fadeOut := none,
                       interactable := false },
    heap := [], timers := [], pendings := [],
    activeTrack := "", interactableNotified := false, toasts := [],
    now := 0, nextAid := 0, nextTid := 0, nextPid := 0 }

/-- Run an event sequence from the initial state. -/
def run (evs : List Ev) : Ctrl := evs.foldl step init

theorem run_append (l1 l2 : List Ev) :
    run (l1 ++ l2) = l2.foldl step (run l1) := by
  simp [run, List.foldl_append]

/-- The row of track t currently holds a session that was started and
not yet stopped, i.e. a session in a non-Idle state headed toward
Playing (FadingIn or Playing); stopped sessions leave the slot and only
fade out. -/
def towardPlaying (s : Ctrl) (t : TrackId) : Bool :=
  (s.rows t).audio.isSome

/-- The global active-track marker currently designates track t. -/
def markerIs (s : Ctrl) (t : TrackId) : Prop :=
  s.activeTrack = t ∧ t ≠ ""

/-- Two start calls for different tracks with no intervening stop: both
rows obtain live sessions ramping toward Playing. -/
def c1trace : List Ev := [Ev.play "a" (some "u"), Ev.play "b" (some "u")]

/-- One start, then 21 interval ticks: the fade-in reaches volume 1.0 at
tick 20, and tick 21 runs the else branch of the interval callback. -/
def c2trace : List Ev := Ev.play "a" (some "u") :: List.replicate 21 Ev.fire

/-- A realistic autoplay rejection message. -/
def interactionErr : String :=
  "play() failed because the user didn\x27t interact with the document first"

/-- A realistic benign-race rejection message. -/
def pauseErr : String :=
  "The play() request was interrupted by a call to pause()"

/-- Advisory already shown (play a, rejected), then a second session on
track b is started and stopped while its play() promise is pending. -/
def c3trace : List Ev :=
  [Ev.play "a" (some "u"), Ev.reject 0 interactionErr,
   Ev.play "b" (some "u"), Ev.stop "b"]

/-- Hover a for 300 ms (volume 0.15), hover off, immediately hover on
and off again, then let the timers run to completion. -/
def c4trace : List Ev :=
  [Ev.play "a" (some "u"), Ev.fire, Ev.fire, Ev.fire, Ev.stop "a",
   Ev.play "a" (some "u"), Ev.stop "a"] ++ List.replicate 5 Ev.fire

/-- Hover a for 200 ms (volume 0.10), hover off, and immediately hover
the same track again. -/
def c10trace : List Ev :=
  [Ev.play "a" (some "u"), Ev.fire, Ev.fire, Ev.stop "a", Ev.play "a" (some "u")]

/-- Claim C1, as frozen, is refuted: after start(a) and start(b) with no
intervening stop (reachable through focus plus hover), the sessions of
both rows are simultaneously in a non-Idle state ramping toward Playing,
so more than one playback session is live at once. -/
theorem c1_counterexample :
    ¬ (∀ t1 t2 : TrackId,
        towardPlaying (run c1trace) t1 = true →
        towardPlaying (run c1trace) t2 = true → t1 = t2) := by
  intro h
  have hab : ("a" : TrackId) = "b" := h "a" "b" (by decide) (by decide)
  exact absurd hab (by decide)

/-- Claim C1, amended: the global active-track marker designates at most
one track at any instant, over every event sequence; the at-most-one
toward-Playing-session half of the claim fails (see the counterexample),
because each row guards only its own slot. -/
theorem c1_amended (evs : List Ev) (t1 t2 : TrackId)
    (h1 : markerIs (run evs) t1) (h2 : markerIs (run evs) t2) : t1 = t2 :=
  h1.1.symm.trans h2.1

/-- Claim C1 witness: the amended theorem applied after a single start,
whose marker designates track a. -/
theorem c1_witness :
    markerIs (run [Ev.play "a" (some "u")]) "a" ∧ ("a" : TrackId) = "a" :=
  ⟨⟨rfl, by decide⟩,
   c1_amended [Ev.play "a" (some "u")] "a" "a" ⟨rfl, by decide⟩ ⟨rfl, by decide⟩⟩

/-- Claim C2: the code contradicts it.  At tick 21, after the volume
reached exactly 1.0 at tick 20, the callback runs its else branch; but
the handle it clears is the captured pre-play value of fadeIn (none on a
first play), not its own handle, so the fade-in interval is still
registered afterwards (re-armed for 2200 ms) and keeps firing. -/
theorem c2_bug :
    heapGet (run c2trace).heap 0 = some ⟨"a", 100, false⟩ ∧
    (run c2trace).timers = [⟨0, 2200, some 100, TimerAct.fadeInTick 0 none⟩] := by
  decide

/-- Claim C5: start is a no-op, leaving the whole state (in particular
the heap and the active-track marker) unchanged, whenever the same-track
row already holds a live session or the track has no preview URL. -/
theorem c5_confirmed (s : Ctrl) (t : TrackId) (url : Option String)
    (h : (s.rows t).audio.isSome = true ∨ url = none) :
    playStep s t url = s := by
  rcases h with h | h
  · simp [playStep, h]
  · subst h; simp [playStep]

/-- Claim C5 witness: start with an absent preview URL on the initial
state is a no-op. -/
theorem c5_witness :
    ((init.rows "a").audio.isSome = true ∨ (none : Option String) = none) ∧
    playStep init "a" none = init :=
  ⟨Or.inr rfl, c5_confirmed init "a" none (Or.inr rfl)⟩

/-- stop on a row with no live session returns the state unchanged. -/
theorem stop_noop (s : Ctrl) (t : TrackId) (h : (s.rows t).audio = none) :
    stopStep s t = s := by
  simp [stopStep, h]

/-- Claim C6: stop with no active session is a no-op on the whole state
(no timer registered, no marker change, no pause scheduled), and a
second stop immediately after a first has no observable effect. -/
theorem c6_confirmed (s : Ctrl) (t : TrackId) :
    ((s.rows t).audio = none → stopStep s t = s) ∧
    stopStep (stopStep s t) t = stopStep s t := by
  constructor
  · exact fun h => stop_noop s t h
  · cases haud : (s.rows t).audio with
    | none => rw [stop_noop s t haud, stop_noop s t haud]
    | some aid =>
      apply stop_noop
      simp [stopStep, haud]

/-- Claim C6 witness: both conjuncts at the initial state, where the
row of track a has no session. -/
theorem c6_witness :
    stopStep init "a" = init ∧
    stopStep (stopStep init "a") "a" = stopStep init "a" :=
  ⟨(c6_confirmed init "a").1 rfl, (c6_confirmed init "a").2⟩

/-- Claim C10: after stop, an immediate start for the SAME track is not
a same-track no-op: the guard sees the emptied slot and creates a fresh
resource (id 1) while the stopped resource (id 0) is still fading out at
volume 0.10, unpaused - two resources of track a audible at once. -/
theorem c10_confirmed :
    ((run c10trace).rows "a").audio = some 1 ∧
    heapGet (run c10trace).heap 0 = some ⟨"a", 10, false⟩ ∧
    heapGet (run c10trace).heap 1 = some ⟨"a", 0, false⟩ ∧
    (run c10trace).activeTrack = "a" := by
  decide

/-- Claim C3, as frozen, is refuted: with the advisory flag set, a
session on track b is started and then stopped; when the stale play()
success callback later resolves, it still mutates state - the
process-wide flag flips to false and the acknowledgement toast fires -
even though the session was already gone. -/
theorem c3_counterexample :
    (run c3trace).interactableNotified = true ∧
    ((run c3trace).rows "b").audio = none ∧
    (resolveStep (run c3trace) 1).interactableNotified = false ∧
    (resolveStep (run c3trace) 1).toasts
      = (run c3trace).toasts ++ [Toast.success ackMsg] := by
  decide

/-- Claim C3, amended: the then handler performs NO session-validity
check.  Settling any pending play() success marks its row interactable
and, whenever the closure captured the advisory flag as set, resets the
process-wide flag and fires the acknowledgement toast, regardless of the
fact that the row no longer holds the session. -/
theorem c3_amended (s : Ctrl) (k : Nat) (p : Pending)
    (h1 : findPending s k = some p)
    (_h2 : (s.rows p.track).audio = none) :
    ((resolveStep s k).rows p.track).interactable = true ∧
    (p.capturedNotified = true →
      (resolveStep s k).interactableNotified = false ∧
      (resolveStep s k).toasts = s.toasts ++ [Toast.success ackMsg]) := by
  cases hc : p.capturedNotified <;> simp [resolveStep, h1, hc]

/-- Claim C3 witness: the amended theorem applied to the concrete stale
callback of the counterexample trace. -/
theorem c3_witness :
    ((resolveStep (run c3trace) 1).rows "b").interactable = true ∧
    ((resolveStep (run c3trace) 1).interactableNotified = false ∧
      (resolveStep (run c3trace) 1).toasts
        = (run c3trace).toasts ++ [Toast.success ackMsg]) :=
  ⟨(c3_amended (run c3trace) 1 ⟨1, 1, "b", true⟩ (by decide) (by decide)).1,
   (c3_amended (run c3trace) 1 ⟨1, 1, "b", true⟩ (by decide) (by decide)).2 rfl⟩

/-- Claim C4: the code contradicts its fade-out clause.  In c4trace the
second stop begins while the first fade-out (from volume 0.15) is still
running; when the second fade-out reaches volume 0, its callback clears
the captured stale handle - which is the FIRST fade-out interval - so
resource 0 stops decrementing at volume 0.10 and its deferred pause then
releases it at volume 0.10, not 0.0. -/
theorem c4_bug :
    heapGet (run c4trace).heap 0 = some ⟨"a", 10, true⟩ ∧
    heapGet (run c4trace).heap 1 = some ⟨"a", 0, true⟩ := by
  decide

/-- Claim C8: a rejection whose message carries the interrupted-by-pause
marker (and not the interaction marker) is swallowed silently: no toast
of any kind is emitted and the advisory flag is untouched. -/
theorem c8_confirmed (s : Ctrl) (k : Nat) (m : String)
    (h1 : includesStr m pauseMarker = true)
    (h2 : includesStr m interactMarker = false) :
    (rejectStep s k m).toasts = s.toasts ∧
    (rejectStep s k m).interactableNotified = s.interactableNotified := by
  cases hf : findPending s k with
  | none => simp [rejectStep, hf]
  | some p => simp [rejectStep, hf, h1, h2]

/-- Claim C8 witness: the realistic interrupted-by-pause message after a
single start leaves toasts and flag unchanged. -/
theorem c8_witness :
    (rejectStep (run [Ev.play "a" (some "u")]) 0 pauseErr).toasts
      = (run [Ev.play "a" (some "u")]).toasts ∧
    (rejectStep (run [Ev.play "a" (some "u")]) 0 pauseErr).interactableNotified
      = (run [Ev.play "a" (some "u")]).interactableNotified :=
  c8_confirmed (run [Ev.play "a" (some "u")]) 0 pauseErr (by decide) (by decide)

/-- Claim C9: stop on a live session at volume v (hundredths) registers,
besides the fade-out interval, a one-shot deferred pause of that very
resource due exactly v * 20 ms later - and v * 20 is exactly
(v / 0.05) * 100 for the real volume v / 100, computed in exact
arithmetic. -/
theorem c9_confirmed (s : Ctrl) (t : TrackId) (aid : Nat) (a : AudioObj)
    (h1 : (s.rows t).audio = some aid)
    (h2 : heapGet s.heap aid = some a)
    (h3 : 0 ≤ a.volume) :
    (stopStep s t).timers
      = clearInterval s.timers (s.rows t).fadeIn
        ++ [⟨s.nextTid, s.now + 100, some 100,
              TimerAct.fadeOutTick aid (s.rows t).fadeOut⟩,
            ⟨s.nextTid + 1, s.now + a.volume.toNat * 20, none,
              TimerAct.pauseShot aid⟩] ∧
    ((a.volume.toNat * 20 : ℚ) = ((a.volume : ℚ) / 100) / (5 / 100) * 100) := by
  constructor
  · simp [stopStep, h1, h2]
  · have hv : ((a.volume.toNat : ℚ)) = ((a.volume : ℚ)) := by
      exact_mod_cast congrArg (fun z : ℤ => (z : ℚ)) (Int.toNat_of_nonneg h3)
    rw [hv]; ring

/-- Claim C9 witness: stopping the session started by a single play (at
volume 0) schedules the pause at delay 0 * 20 = 0 ms. -/
theorem c9_witness :
    ((stopStep (run [Ev.play "a" (some "u")]) "a").timers
      = clearInterval (run [Ev.play "a" (some "u")]).timers
          ((run [Ev.play "a" (some "u")]).rows "a").fadeIn
        ++ [⟨(run [Ev.play "a" (some "u")]).nextTid,
              (run [Ev.play "a" (some "u")]).now + 100, some 100,
              TimerAct.fadeOutTick 0
                ((run [Ev.play "a" (some "u")]).rows "a").fadeOut⟩,
            ⟨(run [Ev.play "a" (some "u")]).nextTid + 1,
              (run [Ev.play "a" (some "u")]).now + (0 : Int).toNat * 20, none,
              TimerAct.pauseShot 0⟩]) ∧
    (((0 : Int).toNat * 20 : ℚ) = (((0 : Int) : ℚ) / 100) / (5 / 100) * 100) :=
  c9_confirmed (run [Ev.play "a" (some "u")]) "a" 0 ⟨"a", 0, false⟩
    (by decide) (by decide) (by decide)

/-- A placeholder preview URL for the C7 scenario family. -/
def uurl : Option String := some "u"

/-- The interaction marker does occur in the realistic rejection
message. -/
theorem includes_interactionErr :
    includesStr interactionErr interactMarker = true := by decide

/-- n hover attempts on track a, each rejected for lack of interaction,
each followed by a hover-off; the promise of each attempt settles before
the next attempt starts, as the host guarantees for autoplay
rejections. -/
def c7pairs : Nat → List Ev
  | 0 => []
  | n + 1 => c7pairs n ++ [Ev.play "a" uurl, Ev.reject n interactionErr, Ev.stop "a"]

/-- The C7 scenario: n rejected attempts, then an attempt whose play()
promise resolves successfully. -/
def c7trace (n : Nat) : List Ev := c7pairs n ++ [Ev.play "a" uurl, Ev.resolve n]

/-- Field effects of a successful start on an empty row a. -/
theorem play_fields (s : Ctrl) (h : (s.rows "a").audio = none) :
    (playStep s "a" uurl).interactableNotified = s.interactableNotified ∧
    (playStep s "a" uurl).toasts = s.toasts ∧
    ((playStep s "a" uurl).rows "a").audio = some s.nextAid ∧
    (playStep s "a" uurl).pendings
      = s.pendings ++ [⟨s.nextPid, s.nextAid, "a", s.interactableNotified⟩] ∧
    (playStep s "a" uurl).nextPid = s.nextPid + 1 := by
  simp [playStep, h, uurl]

/-- Field effects of an interaction rejection whose closure captured the
advisory flag as already set: suppressed, nothing but the pending list
changes. -/
theorem reject_interact_suppressed (s : Ctrl) (k : Nat) (p : Pending)
    (hfind : findPending s k = some p) (hcap : p.capturedNotified = true) :
    (rejectStep s k interactionErr).interactableNotified = s.interactableNotified ∧
    (rejectStep s k interactionErr).toasts = s.toasts ∧
    (rejectStep s k interactionErr).rows = s.rows ∧
    (rejectStep s k interactionErr).pendings
      = s.pendings.filter (fun q => q.pid != k) ∧
    (rejectStep s k interactionErr).nextPid = s.nextPid := by
  simp [rejectStep, hfind, hcap, includes_interactionErr]

/-- Field effects of a stop on a row holding a live session. -/
theorem stop_fields (s : Ctrl) (aid : Nat) (h : (s.rows "a").audio = some aid) :
    (stopStep s "a").interactableNotified = s.interactableNotified ∧
    (stopStep s "a").toasts = s.toasts ∧
    ((stopStep s "a").rows "a").audio = none ∧
    (stopStep s "a").pendings = s.pendings ∧
    (stopStep s "a").nextPid = s.nextPid := by
  simp [stopStep, h]

/-- Field effects of a success whose closure captured the advisory flag
as set: the flag resets and the acknowledgement toast fires. -/
theorem resolve_ack (s : Ctrl) (k : Nat) (p : Pending)
    (hfind : findPending s k = some p) (hcap : p.capturedNotified = true) :
    (resolveStep s k).interactableNotified = false ∧
    (resolveStep s k).toasts = s.toasts ++ [Toast.success ackMsg] := by
  simp [resolveStep, hfind, hcap]

/-- State after n rejected attempts, for n at least 1: the advisory was
toasted exactly once, the flag is set, the row is free again, no promise
is pending and the next promise id is n. -/
theorem c7pairs_state (n : Nat) (hn : 1 ≤ n) :
    (run (c7pairs n)).interactableNotified = true ∧
    (run (c7pairs n)).toasts = [Toast.plain advisoryMsg] ∧
    ((run (c7pairs n)).rows "a").audio = none ∧
    (run (c7pairs n)).pendings = [] ∧
    (run (c7pairs n)).nextPid = n := by
  induction n with
  | zero => exact absurd hn (by decide)
  | succ n ih =>
    by_cases h1 : 1 ≤ n
    · obtain ⟨hf, ht, ha, hp, hpid⟩ := ih h1
      rw [show c7pairs (n + 1)
            = c7pairs n ++ [Ev.play "a" uurl, Ev.reject n interactionErr, Ev.stop "a"]
          from rfl, run_append]
      simp only [List.foldl_cons, List.foldl_nil, step]
      obtain ⟨pf, pt, pa, pp, ppid⟩ := play_fields (run (c7pairs n)) ha
      have hfind : findPending (playStep (run (c7pairs n)) "a" uurl) n
          = some ⟨n, (run (c7pairs n)).nextAid, "a", true⟩ := by
        simp [findPending, pp, hp, hpid, hf]
      obtain ⟨rf, rt, rr, rp, rpid⟩ :=
        reject_interact_suppressed _ n _ hfind rfl
      have ha2 : ((rejectStep (playStep (run (c7pairs n)) "a" uurl) n
          interactionErr).rows "a").audio = some (run (c7pairs n)).nextAid := by
        rw [rr]; exact pa
      obtain ⟨sf, st, sa, sp, spid⟩ := stop_fields _ _ ha2
      refine ⟨?_, ?_, sa, ?_, ?_⟩
      · rw [sf, rf, pf, hf]
      · rw [st, rt, pt, ht]
      · rw [sp, rp, pp, hp, hpid]
        simp
      · rw [spid, rpid, ppid, hpid]
    · have hn0 : n = 0 := by omega
      subst hn0
      exact ⟨by decide, by decide, by decide, by decide, by decide⟩

/-- Claim C7: across any number n of interaction-rejected attempts with
no intervening success, the advisory toast fires exactly once and the
process-wide flag stays set; when a later attempt finally succeeds, the
acknowledgement toast fires exactly once and the flag resets. -/
theorem c7_confirmed (n : Nat) (hn : 1 ≤ n) :
    (run (c7pairs n)).interactableNotified = true ∧
    (run (c7pairs n)).toasts = [Toast.plain advisoryMsg] ∧
    (run (c7trace n)).interactableNotified = false ∧
    (run (c7trace n)).toasts = [Toast.plain advisoryMsg, Toast.success ackMsg] := by
  obtain ⟨hf, ht, ha, hp, hpid⟩ := c7pairs_state n hn
  refine ⟨hf, ht, ?_, ?_⟩ <;>
  · rw [show c7trace n = c7pairs n ++ [Ev.play "a" uurl, Ev.resolve n] from rfl,
        run_append]
    simp only [List.foldl_cons, List.foldl_nil, step]
    obtain ⟨pf, pt, pa, pp, ppid⟩ := play_fields (run (c7pairs n)) ha
    have hfind : findPending (playStep (run (c7pairs n)) "a" uurl) n
        = some ⟨n, (run (c7pairs n)).nextAid, "a", true⟩ := by
      simp [findPending, pp, hp, hpid, hf]
    obtain ⟨af, atst⟩ := resolve_ack _ n _ hfind rfl
    first
    | exact af
    | (rw [atst, pt, ht]; rfl)

/-- Claim C7 witness: the scenario of testable property 8, two
rejections in a row, then a success. -/
theorem c7_witness :
    (run (c7pairs 2)).interactableNotified = true ∧
    (run (c7pairs 2)).toasts = [Toast.plain advisoryMsg] ∧
    (run (c7trace 2)).interactableNotified = false ∧
    (run (c7trace 2)).toasts = [Toast.plain advisoryMsg, Toast.success ackMsg] :=
  c7_confirmed 2 (by decide)

end Preview
